import Mathlib

/-!
Verification of the go-slack-event-router repository: a shallow embedding of
the signing middleware, the event router and the interaction router, with
theorems checking the natural-language specification against the code.

Machine integers are modelled as Nat/Int (timestamps fit in int64 in the
source; no arithmetic here can overflow), byte strings as String, and the
HTTP response writer as an explicit list of response-write attempts.
-/

namespace SlackRouter

/-! ## Decimal formatting and parsing

Embeds strconv.FormatInt(t, 10) and strconv.ParseInt(s, 10, 64) as used by
testutils.AddSignature and the signature verifier. -/

/-- One decimal digit as a character, as Go's strconv emits it. -/
def digitChar (d : Nat) : Char := Char.ofNat (48 + d)

/-- Decimal digits of a natural number, least significant first.
Fuel-based so that the definition is structural; fuel n+1 always suffices. -/
def natToRevDigits : Nat → Nat → List Nat
  | 0, _ => []
  | fuel+1, n => if n < 10 then [n] else (n % 10) :: natToRevDigits fuel (n / 10)

/-- Decimal digits of a natural number, most significant first. -/
def natDigits (n : Nat) : List Nat := (natToRevDigits (n+1) n).reverse

/-- Decimal representation of a natural number. -/
def natRepr (n : Nat) : String := String.mk ((natDigits n).map digitChar)

/-- Embeds strconv.FormatInt(t, 10). -/
def formatInt (t : Int) : String :=
  if t < 0 then "-" ++ natRepr t.natAbs else natRepr t.natAbs

/-- Accumulator pass of decimal parsing: digits so far are in acc. -/
def parseNatCore : List Char → Nat → Option Nat
  | [], acc => some acc
  | c :: cs, acc =>
    if c.isDigit then parseNatCore cs (10 * acc + (c.toNat - 48)) else none

/-- Embeds strconv.ParseInt(s, 10, 64) on the character list of s
(sign handling as in Go; overflow ignored since Int is unbounded). -/
def parseIntList : List Char → Option Int
  | [] => none
  | c :: cs =>
    if c = '-' then
      if cs = [] then none else (parseNatCore cs 0).map (fun n => -(n : Int))
    else if c = '+' then
      if cs = [] then none else (parseNatCore cs 0).map (fun n => (n : Int))
    else (parseNatCore (c :: cs) 0).map (fun n => (n : Int))

/-- Embeds strconv.ParseInt(s, 10, 64). -/
def parseInt (s : String) : Option Int := parseIntList s.data

/-- Most-significant-first value of a digit list, with accumulator. -/
def digitsVal : List Nat → Nat → Nat
  | [], acc => acc
  | d :: ds, acc => digitsVal ds (10 * acc + d)

theorem digitsVal_append (xs : List Nat) (d acc : Nat) :
    digitsVal (xs ++ [d]) acc = 10 * digitsVal xs acc + d := by
  induction xs generalizing acc with
  | nil => simp [digitsVal]
  | cons x xs ih => simp [digitsVal, ih]

theorem natToRevDigits_lt (fuel : Nat) :
    ∀ n, n < fuel → ∀ d ∈ natToRevDigits fuel n, d < 10 := by
  induction fuel with
  | zero => omega
  | succ fuel ih =>
    intro n hn d hd
    by_cases h10 : n < 10
    · simp [natToRevDigits, h10] at hd
      omega
    · simp only [natToRevDigits, if_neg h10, List.mem_cons] at hd
      rcases hd with rfl | hd
      · omega
      · have hlt : n / 10 < n := Nat.div_lt_self (by omega) (by omega)
        exact ih (n / 10) (by omega) d hd

theorem natToRevDigits_ne_nil (fuel n : Nat) (h : n < fuel) :
    natToRevDigits fuel n ≠ [] := by
  cases fuel with
  | zero => omega
  | succ fuel =>
    by_cases h10 : n < 10 <;> simp [natToRevDigits, h10]

theorem digitsVal_natToRevDigits (fuel : Nat) :
    ∀ n acc, n < fuel →
      digitsVal (natToRevDigits fuel n).reverse acc
        = acc * 10 ^ (natToRevDigits fuel n).length + n := by
  induction fuel with
  | zero => omega
  | succ fuel ih =>
    intro n acc hn
    by_cases h10 : n < 10
    · simp [natToRevDigits, h10, digitsVal]
      ring
    · have hlt : n / 10 < n := Nat.div_lt_self (by omega) (by omega)
      simp only [natToRevDigits, if_neg h10, List.reverse_cons, List.length_cons]
      rw [digitsVal_append, ih (n / 10) acc (by omega)]
      calc 10 * (acc * 10 ^ (natToRevDigits fuel (n / 10)).length + n / 10) + n % 10
          = acc * (10 ^ (natToRevDigits fuel (n / 10)).length * 10)
              + (10 * (n / 10) + n % 10) := by ring
        _ = acc * 10 ^ ((natToRevDigits fuel (n / 10)).length + 1) + n := by
              rw [Nat.div_add_mod, pow_succ]

theorem digitChar_spec (d : Nat) (h : d < 10) :
    (digitChar d).isDigit = true ∧ (digitChar d).toNat - 48 = d
      ∧ digitChar d ≠ '-' ∧ digitChar d ≠ '+' := by
  interval_cases d <;> decide

theorem parseNatCore_digits (ds : List Nat) :
    ∀ acc, (∀ d ∈ ds, d < 10) →
      parseNatCore (ds.map digitChar) acc = some (digitsVal ds acc) := by
  induction ds with
  | nil => intro acc _; simp [parseNatCore, digitsVal]
  | cons d ds ih =>
    intro acc h
    have hd := digitChar_spec d (h d (by simp))
    simp only [List.map_cons, parseNatCore, digitsVal, hd.1, if_true, hd.2.1]
    exact ih _ (fun x hx => h x (by simp [hx]))

theorem natDigits_lt (n : Nat) : ∀ d ∈ natDigits n, d < 10 := fun d hd =>
  natToRevDigits_lt (n+1) n (Nat.lt_succ_self n) d (List.mem_reverse.mp hd)

theorem natDigits_ne_nil (n : Nat) : natDigits n ≠ [] := by
  unfold natDigits
  simpa using natToRevDigits_ne_nil (n+1) n (Nat.lt_succ_self n)

theorem parseNatCore_natDigits (n : Nat) :
    parseNatCore ((natDigits n).map digitChar) 0 = some n := by
  rw [parseNatCore_digits _ _ (natDigits_lt n)]
  unfold natDigits
  rw [digitsVal_natToRevDigits (n+1) n 0 (Nat.lt_succ_self n)]
  simp

theorem parseInt_formatInt (t : Int) : parseInt (formatInt t) = some t := by
  unfold parseInt formatInt
  by_cases ht : t < 0
  · rw [if_pos ht]
    have hdata : ("-" ++ natRepr t.natAbs).data
        = '-' :: (natDigits t.natAbs).map digitChar := by
      simp [natRepr, String.data_append]
    rw [hdata]
    have hne : (natDigits t.natAbs).map digitChar ≠ [] := by
      simp [natDigits_ne_nil]
    have habs : ((t.natAbs : Int)) = -t := Int.ofNat_natAbs_of_nonpos (le_of_lt ht)
    simp only [parseIntList]
    rw [if_pos trivial, if_neg hne, parseNatCore_natDigits]
    simp [habs]
  · rw [if_neg ht]
    have hdata : (natRepr t.natAbs).data = (natDigits t.natAbs).map digitChar := rfl
    rw [hdata]
    cases hds : natDigits t.natAbs with
    | nil => exact absurd hds (natDigits_ne_nil _)
    | cons d ds =>
      have hd : d < 10 := natDigits_lt t.natAbs d (by simp [hds])
      have hspec := digitChar_spec d hd
      simp only [List.map_cons, parseIntList, if_neg hspec.2.2.1, if_neg hspec.2.2.2]
      rw [← List.map_cons, ← hds, parseNatCore_natDigits]
      simp [Int.natAbs_of_nonneg (show (0:Int) ≤ t by omega)]

/-! ## Error taxonomy

Embeds the repository's error values and their classification. -/

/-- Modelled from the spec: the repository's errors package (its file is not
among the staged sources; only its callers are). It defines the sentinel
`NotInterested` and the status-carrying `HttpError(code)`; both keep their
identity when wrapped with an additional message (pkg/errors.WithMessage),
which `wrapped` represents. Any other Go error value is `other`. -/
inductive GoErr where
  | notInterested : GoErr
  | httpError (code : Nat) : GoErr
  | wrapped (msg : String) (inner : GoErr) : GoErr
  | other (msg : String) : GoErr
  deriving DecidableEq, Repr

/-- Embeds errors.Is(err, routererrors.NotInterested): true when the error is
the sentinel or wraps it. -/
def errIsNotInterested : GoErr → Bool
  | .notInterested => true
  | .wrapped _ inner => errIsNotInterested inner
  | _ => false

/-- Go handlers return `error` which may be nil; errors.Is(nil, sentinel) is
false. -/
def optIsNotInterested : Option GoErr → Bool
  | none => false
  | some e => errIsNotInterested e

/-- Embeds errors.As(err, &httpErr) for routererrors.HttpError: the first
HttpError in the unwrap chain, if any. -/
def errAsHttpError : GoErr → Option Nat
  | .httpError code => some code
  | .wrapped _ inner => errAsHttpError inner
  | _ => none

/-- Modelled from the spec: the human-readable message of an error value
(err.Error() in Go), used only for verbose response bodies. -/
def errMessage : GoErr → String
  | .notInterested => "not interested"
  | .httpError code => natRepr code
  | .wrapped msg inner => msg ++ ": " ++ errMessage inner
  | .other msg => msg

/-- One HTTP response write attempt: a status and a body. -/
structure HttpResponse where
  status : Nat
  body : String
  deriving DecidableEq, Repr

/-- Embeds routerutils.RespondWithError (src/routerutils/routerutils.go):
a wrapped HttpError decides the status; anything else is 500; the body
carries the message only in verbose mode. -/
def RespondWithError (err : GoErr) (verboseResponse : Bool) : HttpResponse :=
  { status :=
      match errAsHttpError err with
      | some code => code
      | none => 500,
    body := if verboseResponse then errMessage err else "" }

/-! ## Signature verification (signature package and its middleware) -/

namespace signature

/-- The two Slack signing headers; none models an absent header. -/
structure Headers where
  timestamp : Option String
  signature : Option String
  deriving DecidableEq, Repr

/-- Verification failure taxonomy (spec section 4.1). -/
inductive VerifyErr where
  | missingHeader : VerifyErr
  | malformedTimestamp : VerifyErr
  | staleTimestamp : VerifyErr
  | signatureMismatch : VerifyErr
  deriving DecidableEq, Repr

/-- Modelled from the spec: the message text of a verification failure,
used only for verbose response bodies. -/
def VerifyErr.message : VerifyErr → String
  | .missingHeader => "missing headers"
  | .malformedTimestamp => "malformed timestamp"
  | .staleTimestamp => "timestamp is too old"
  | .signatureMismatch => "signature mismatch"

/-- State of a successfully initialized verifier. -/
structure SecretsVerifier where
  secret : String
  timestampStr : String
  claimedSignature : String
  deriving DecidableEq, Repr

/-- Modelled from the spec: slack.NewSecretsVerifier (third-party library,
not among the source files). Per spec section 4.1: both headers must be
present; the timestamp must parse as integer Unix seconds; it must satisfy
abs(now - timestamp) <= 300 s; staleness is checked before the signature. -/
def NewSecretsVerifier (headers : Headers) (secret : String) (now : Int) :
    Except VerifyErr SecretsVerifier :=
  match headers.timestamp, headers.signature with
  | some ts, some sig =>
      match parseInt ts with
      | none => .error .malformedTimestamp
      | some t =>
          if (now - t).natAbs > 300 then .error .staleTimestamp
          else .ok { secret := secret, timestampStr := ts, claimedSignature := sig }
  | _, _ => .error .missingHeader

/-- Modelled from the spec: SecretsVerifier.Ensure compares the claimed
signature with "v0=" + hex(HMAC-SHA256(secret, "v0:" + timestampString +
":" + rawBody)) (spec section 4.1 steps 3-4). hmacSha256Hex stands for the
hex-encoded HMAC-SHA256 of the external crypto library; every definition
below recomputes it through the same parameter, exactly as the source calls
the same library function on both sides. -/
def Ensure (hmacSha256Hex : String → String → String)
    (v : SecretsVerifier) (body : String) : Option VerifyErr :=
  let expected :=
    "v0=" ++ hmacSha256Hex v.secret ("v0:" ++ v.timestampStr ++ ":" ++ body)
  if expected = v.claimedSignature then none else some .signatureMismatch

/-- Embeds testutils.AddSignature (src/internal/testutils/testutils.go):
HMAC-SHA256 over "v0:" + FormatInt(t) + ":" + body, hex-encoded, prefixed
"v0=", written into the two headers. -/
def AddSignature (hmacSha256Hex : String → String → String)
    (key body : String) (timestamp : Int) : Headers :=
  let strTime := formatInt timestamp
  let signature := hmacSha256Hex key ("v0:" ++ strTime ++ ":" ++ body)
  { timestamp := some strTime, signature := some ("v0=" ++ signature) }

/-- Outcome of the middleware: either a response is written, or the inner
handler is invoked with the restored body bytes. -/
inductive MwResult where
  | response (resp : HttpResponse) : MwResult
  | delegate (body : String) : MwResult
  deriving DecidableEq, Repr

/-- Configuration of signature.Middleware (the version the Router installs:
src/unnamed/part_000, SigningSecret field). -/
structure Middleware where
  SigningSecret : String
  VerboseResponse : Bool
  deriving DecidableEq, Repr

/-- Embeds Middleware.ServeHTTP (src/unnamed/part_000 lines 143-170): any
verifier-initialization failure answers 400, a body read failure 500, an
Ensure failure 401; on success the inner handler runs on the tee-restored
body. -/
def Middleware.ServeHTTP (hmacSha256Hex : String → String → String)
    (m : Middleware) (headers : Headers) (bodyRead : Except String String)
    (now : Int) : MwResult :=
  match NewSecretsVerifier headers m.SigningSecret now with
  | .error e =>
      .response ⟨400, if m.VerboseResponse then
        "failed to initialize verifier: " ++ e.message else ""⟩
  | .ok verifier =>
      match bodyRead with
      | .error msg =>
          .response ⟨500, if m.VerboseResponse then
            "failed to read response: " ++ msg else ""⟩
      | .ok body =>
          match Ensure hmacSha256Hex verifier body with
          | some e =>
              .response ⟨401, if m.VerboseResponse then
                "verification failed: " ++ e.message else ""⟩
          | none => .delegate body

end signature

/-- C1: for every signing secret S, request body B and timestamp T within the
five-minute freshness window of now, a request whose headers are produced by
AddSignature(S, T, B) is accepted by the signing middleware configured with
secret S: verification passes and the wrapped handler is invoked with the
same body bytes B. -/
theorem c1_signing_round_trip (hmacSha256Hex : String → String → String)
    (S B : String) (T now : Int) (verbose : Bool)
    (hfresh : (now - T).natAbs ≤ 300) :
    signature.Middleware.ServeHTTP hmacSha256Hex ⟨S, verbose⟩
      (signature.AddSignature hmacSha256Hex S B T) (Except.ok B) now
      = signature.MwResult.delegate B := by
  simp only [signature.Middleware.ServeHTTP, signature.AddSignature,
    signature.NewSecretsVerifier, parseInt_formatInt]
  rw [if_neg (by omega)]
  simp [signature.Ensure]

/-- Witness for C1: a concrete signed request (secret "sec", body "body",
timestamp 50 at now = 100) is delegated unchanged. -/
theorem c1_signing_round_trip_witness :
    (((100:Int) - 50).natAbs ≤ 300) ∧
    signature.Middleware.ServeHTTP (fun s m => s ++ "#" ++ m) ⟨"sec", false⟩
      (signature.AddSignature (fun s m => s ++ "#" ++ m) "sec" "body" 50)
      (Except.ok "body") 100
      = signature.MwResult.delegate "body" :=
  ⟨by decide, c1_signing_round_trip (fun s m => s ++ "#" ++ m) "sec" "body" 50 100
    false (by decide)⟩

/-- C2 counterexample: a request with both headers present and a stale
timestamp (timestamp 0 at now = 1000 s) is answered 400 by the signing
middleware, not 401 as the claim states for stale timestamps. -/
theorem c2_stale_timestamp_counterexample :
    signature.Middleware.ServeHTTP (fun s m => s ++ "#" ++ m) ⟨"sec", false⟩
      ⟨some "0", some "v0=sig"⟩ (Except.ok "body") 1000
      = signature.MwResult.response ⟨400, ""⟩
    ∧ (400 : Nat) ≠ 401 := by
  exact ⟨by decide, by decide⟩

/-- C2 (amended): the signing middleware answers 400 on any
verifier-initialization failure, i.e. when a header is missing, when the
timestamp does not parse, and also when the timestamp is stale; it answers
401 only when the request is fresh and well-formed but the signature does
not match; and it answers 500 when reading the body fails after successful
initialization. -/
theorem c2_status_mapping (hmacSha256Hex : String → String → String)
    (m : signature.Middleware) (headers : signature.Headers)
    (bodyRead : Except String String) (now : Int) :
    (headers.timestamp = none ∨ headers.signature = none →
      ∃ b, signature.Middleware.ServeHTTP hmacSha256Hex m headers bodyRead now
        = .response ⟨400, b⟩)
    ∧ (∀ ts, headers.timestamp = some ts → parseInt ts = none →
      ∃ b, signature.Middleware.ServeHTTP hmacSha256Hex m headers bodyRead now
        = .response ⟨400, b⟩)
    ∧ (∀ ts t, headers.timestamp = some ts → parseInt ts = some t →
      (now - t).natAbs > 300 →
      ∃ b, signature.Middleware.ServeHTTP hmacSha256Hex m headers bodyRead now
        = .response ⟨400, b⟩)
    ∧ (∀ ts sig t msg, headers.timestamp = some ts → headers.signature = some sig →
      parseInt ts = some t → (now - t).natAbs ≤ 300 → bodyRead = .error msg →
      ∃ b, signature.Middleware.ServeHTTP hmacSha256Hex m headers bodyRead now
        = .response ⟨500, b⟩)
    ∧ (∀ ts sig t body, headers.timestamp = some ts → headers.signature = some sig →
      parseInt ts = some t → (now - t).natAbs ≤ 300 → bodyRead = .ok body →
      "v0=" ++ hmacSha256Hex m.SigningSecret ("v0:" ++ ts ++ ":" ++ body) ≠ sig →
      ∃ b, signature.Middleware.ServeHTTP hmacSha256Hex m headers bodyRead now
        = .response ⟨401, b⟩) := by
  obtain ⟨hts, hsig⟩ := headers
  refine ⟨?_, ?_, ?_, ?_, ?_⟩
  · rintro (rfl | rfl)
    · simp [signature.Middleware.ServeHTTP, signature.NewSecretsVerifier]
    · cases hts <;>
        simp [signature.Middleware.ServeHTTP, signature.NewSecretsVerifier]
  · rintro ts rfl hparse
    cases hsig <;>
      simp [signature.Middleware.ServeHTTP, signature.NewSecretsVerifier, hparse]
  · rintro ts t rfl hparse hstale
    cases hsig <;>
      simp [signature.Middleware.ServeHTTP, signature.NewSecretsVerifier, hparse,
        hstale]
  · rintro ts sig t msg rfl rfl hparse hfresh rfl
    simp [signature.Middleware.ServeHTTP, signature.NewSecretsVerifier, hparse,
      Nat.not_lt.mpr hfresh]
  · rintro ts sig t body rfl rfl hparse hfresh rfl hmismatch
    simp [signature.Middleware.ServeHTTP, signature.NewSecretsVerifier, hparse,
      Nat.not_lt.mpr hfresh, signature.Ensure, hmismatch]

/-- Witness for C2 (amended): each of the five status cases at a concrete
request against secret "sec" at now = 1000 s. -/
theorem c2_status_mapping_witness :
    (∃ b, signature.Middleware.ServeHTTP (fun s m => s ++ "#" ++ m)
      ⟨"sec", false⟩ ⟨none, some "v0=x"⟩ (Except.ok "B") 1000
        = .response ⟨400, b⟩)
    ∧ (∃ b, signature.Middleware.ServeHTTP (fun s m => s ++ "#" ++ m)
      ⟨"sec", false⟩ ⟨some "zz", some "v0=x"⟩ (Except.ok "B") 1000
        = .response ⟨400, b⟩)
    ∧ (∃ b, signature.Middleware.ServeHTTP (fun s m => s ++ "#" ++ m)
      ⟨"sec", false⟩ ⟨some "0", some "v0=x"⟩ (Except.ok "B") 1000
        = .response ⟨400, b⟩)
    ∧ (∃ b, signature.Middleware.ServeHTTP (fun s m => s ++ "#" ++ m)
      ⟨"sec", false⟩ ⟨some "900", some "v0=x"⟩ (Except.error "boom") 1000
        = .response ⟨500, b⟩)
    ∧ (∃ b, signature.Middleware.ServeHTTP (fun s m => s ++ "#" ++ m)
      ⟨"sec", false⟩ ⟨some "900", some "v0=x"⟩ (Except.ok "B") 1000
        = .response ⟨401, b⟩) := by
  refine ⟨?_, ?_, ?_, ?_, ?_⟩
  · exact (c2_status_mapping _ _ _ _ _).1 (Or.inl rfl)
  · exact (c2_status_mapping _ _ _ _ _).2.1 "zz" rfl (by decide)
  · exact (c2_status_mapping _ _ _ _ _).2.2.1 "0" 0 rfl (by decide) (by decide)
  · exact (c2_status_mapping _ _ _ _ _).2.2.2.1 "900" "v0=x" 900 "boom" rfl rfl
      (by decide) (by decide) rfl
  · exact (c2_status_mapping _ _ _ _ _).2.2.2.2 "900" "v0=x" 900 "B" rfl rfl
      (by decide) (by decide) rfl (by decide)

/-! ## Event data model (slackevents, as consumed by the router) -/

namespace slackevents

def URLVerification : String := "url_verification"

def CallbackEvent : String := "event_callback"

def AppRateLimited : String := "app_rate_limited"

def Message : String := "message"

def AppMention : String := "app_mention"

def ReactionAdded : String := "reaction_added"

def ReactionRemoved : String := "reaction_removed"

structure MessageEvent where
  channel : String
  text : String
  subType : String
  deriving DecidableEq, Repr

structure AppMentionEvent where
  channel : String
  text : String
  deriving DecidableEq, Repr

structure ReactionAddedEvent where
  reaction : String
  deriving DecidableEq, Repr

structure ReactionRemovedEvent where
  reaction : String
  deriving DecidableEq, Repr

structure EventsAPIURLVerificationEvent where
  challenge : String
  deriving DecidableEq, Repr

structure ChallengeResponse where
  challenge : String
  deriving DecidableEq, Repr

/-- The dedicated app_rate_limited shape; field defaults give the Go zero
value. -/
structure EventsAPIAppRateLimited where
  minuteRateLimited : Int := 0
  apiAppId : String := ""
  deriving DecidableEq, Repr

/-- The dynamically typed InnerEvent.Data: one of the four decoded inner
payload types the router's typed registrations assert, or anything else. -/
inductive InnerData where
  | message (e : MessageEvent)
  | appMention (e : AppMentionEvent)
  | reactionAdded (e : ReactionAddedEvent)
  | reactionRemoved (e : ReactionRemovedEvent)
  | otherData
  deriving DecidableEq, Repr

structure InnerEvent where
  type : String
  data : InnerData
  deriving DecidableEq, Repr

/-- The dynamically typed outer Data field. -/
inductive OuterData where
  | urlVerification (e : EventsAPIURLVerificationEvent)
  | otherData
  deriving DecidableEq, Repr

structure EventsAPIEvent where
  type : String
  data : OuterData
  innerEvent : InnerEvent
  deriving DecidableEq, Repr

end slackevents

/-! ## Handlers, predicates and the Build chain

A Go handler is effectful code; the embedding threads an explicit invocation
log through every call so that which handlers and predicates ran, and in
which order, is observable (the repository's own tests observe the same
through counters). -/

abbrev Log := List String

/-- A handler over payload α (message.Handler, appmention.Handler, ...). -/
abbrev HandlerG (α : Type) := α → Log → Log × Option GoErr

/-- Embeds the per-package `Predicate` interface, whose single method Wrap
turns a handler into a handler. -/
abbrev PredicateG (α : Type) := HandlerG α → HandlerG α

/-- Embeds Build, textually identical in the message, appmention, reaction
and interactionrouter packages: for each predicate in argument order,
h = p.Wrap(h); the handler built last is therefore outermost. -/
def Build {α : Type} (h : HandlerG α) (preds : List (PredicateG α)) : HandlerG α :=
  preds.foldl (fun h p => p h) h

/-- Embeds the shape shared by every concrete predicate Wrap method in the
repository (message.Channel, appmention.TextRegexp, interactionrouter.Type,
...): if the condition on the payload fails, return NotInterested without
calling the wrapped handler; otherwise call it and propagate its result. -/
def condPredicate {α : Type} (cond : α → Bool) : PredicateG α :=
  fun h e log => if cond e then h e log else (log, some GoErr.notInterested)

/-- A probe predicate: a test-double instance of the Predicate interface
that also records its own evaluation in the log, used to observe in which
order predicates run. -/
def probePredicate {α : Type} (name : String) (isMatch : Bool) : PredicateG α :=
  fun h e log =>
    let seen := log ++ [name]
    if isMatch then h e seen else (seen, some GoErr.notInterested)

/-- A probe handler: records its invocation and returns the given result. -/
def probeHandler {α : Type} (name : String) (res : Option GoErr) : HandlerG α :=
  fun _ log => (log ++ [name], res)

/-! ## The event Router (src/eventrouter.go) -/

namespace eventrouter

/-- Embeds eventrouter.Handler. -/
abbrev Handler := HandlerG slackevents.EventsAPIEvent

namespace urlverification

/-- Embeds urlverification.DefaultHandler
(src/urlverification/urlverification.go lines 17-21): echo the challenge. -/
def DefaultHandler (e : slackevents.EventsAPIURLVerificationEvent) :
    Except GoErr slackevents.ChallengeResponse :=
  .ok { challenge := e.challenge }

end urlverification

namespace appratelimited

/-- Embeds appratelimited.DefaultHandler: ignore the event. -/
def DefaultHandler (_ : slackevents.EventsAPIAppRateLimited) : Option GoErr :=
  none

end appratelimited

structure Router where
  signingSecret : String
  skipVerification : Bool
  verboseResponse : Bool
  callbackHandlers : List (String × List Handler)
  urlVerificationHandler :
    slackevents.EventsAPIURLVerificationEvent →
      Except GoErr slackevents.ChallengeResponse
  appRateLimitedHandler : slackevents.EventsAPIAppRateLimited → Option GoErr
  fallbackHandler : Option Handler

/-- Embeds the Option values accepted by New. -/
inductive RouterOption where
  | insecureSkipVerification : RouterOption
  | withSigningSecret (token : String) : RouterOption
  | verboseResponse : RouterOption

/-- Embeds option.apply. -/
def applyOption (r : Router) : RouterOption → Router
  | .insecureSkipVerification => { r with skipVerification := true }
  | .withSigningSecret token => { r with signingSecret := token }
  | .verboseResponse => { r with verboseResponse := true }

/-- The defaults New starts from (src/eventrouter.go lines 95-99). -/
def defaultRouter : Router :=
  { signingSecret := ""
    skipVerification := false
    verboseResponse := false
    callbackHandlers := []
    urlVerificationHandler := urlverification.DefaultHandler
    appRateLimitedHandler := appratelimited.DefaultHandler
    fallbackHandler := none }

/-- Embeds eventrouter.New (src/eventrouter.go lines 94-119): defaults, then
the options in order, then the two mutual-exclusion checks, raised at
construction time. -/
def New (options : List RouterOption) : Except String Router :=
  let r := options.foldl applyOption defaultRouter
  if r.signingSecret = "" ∧ ¬ r.skipVerification then
    .error "WithSigningSecret must be set, or you can ignore this by setting InsecureSkipVerification"
  else if r.signingSecret ≠ "" ∧ r.skipVerification then
    .error "both WithSigningSecret and InsecureSkipVerification are given"
  else
    .ok r

/-- Assoc-list lookup: embeds Go map indexing (handlers, ok := m[k]). -/
def alookup {β : Type} : List (String × β) → String → Option β
  | [], _ => none
  | (k, v) :: rest, key => if k = key then some v else alookup rest key

/-- Assoc-list store: embeds Go map assignment m[k] = v. -/
def astore {β : Type} : List (String × β) → String → β → List (String × β)
  | [], key, v => [(key, v)]
  | (k, w) :: rest, key, v =>
      if k = key then (k, v) :: rest else (k, w) :: astore rest key v

/-- Embeds Router.On (src/eventrouter.go lines 133-140): append the handler
to the type's list, creating the list when absent. -/
def Router.On (r : Router) (eventType : String) (h : Handler) : Router :=
  let handlers := (alookup r.callbackHandlers eventType).getD []
  { r with callbackHandlers :=
      astore r.callbackHandlers eventType (handlers ++ [h]) }

/-- Embeds Router.OnMessage (src/eventrouter.go lines 148-157): build the
predicate chain, then register under the message key a handler that asserts
the inner payload type and answers HttpError(400) when the assertion fails. -/
def Router.OnMessage (r : Router) (h : HandlerG slackevents.MessageEvent)
    (preds : List (PredicateG slackevents.MessageEvent)) : Router :=
  let h := Build h preds
  r.On slackevents.Message (fun e log =>
    match e.innerEvent.data with
    | .message inner => h inner log
    | _ => (log, some (GoErr.httpError 400)))

/-- Embeds Router.OnAppMention (src/eventrouter.go lines 165-174). -/
def Router.OnAppMention (r : Router) (h : HandlerG slackevents.AppMentionEvent)
    (preds : List (PredicateG slackevents.AppMentionEvent)) : Router :=
  let h := Build h preds
  r.On slackevents.AppMention (fun e log =>
    match e.innerEvent.data with
    | .appMention inner => h inner log
    | _ => (log, some (GoErr.httpError 400)))

/-- Embeds Router.OnReactionAdded (src/eventrouter.go lines 182-191). -/
def Router.OnReactionAdded (r : Router)
    (h : HandlerG slackevents.ReactionAddedEvent)
    (preds : List (PredicateG slackevents.ReactionAddedEvent)) : Router :=
  let h := Build h preds
  r.On slackevents.ReactionAdded (fun e log =>
    match e.innerEvent.data with
    | .reactionAdded inner => h inner log
    | _ => (log, some (GoErr.httpError 400)))

/-- Embeds Router.OnReactionRemoved (src/eventrouter.go lines 199-208). -/
def Router.OnReactionRemoved (r : Router)
    (h : HandlerG slackevents.ReactionRemovedEvent)
    (preds : List (PredicateG slackevents.ReactionRemovedEvent)) : Router :=
  let h := Build h preds
  r.On slackevents.ReactionRemoved (fun e log =>
    match e.innerEvent.data with
    | .reactionRemoved inner => h inner log
    | _ => (log, some (GoErr.httpError 400)))

/-- Embeds the handler loop of Router.handleCallbackEvent: err starts as the
caller's value; each handler runs in turn; the loop stops at the first
result that is not NotInterested (in the errors.Is sense). -/
def runHandlers (e : slackevents.EventsAPIEvent) :
    List Handler → Log → Option GoErr → Log × Option GoErr
  | [], log, err => (log, err)
  | h :: rest, log, _ =>
      let (log', err) := h e log
      if optIsNotInterested err then runHandlers e rest log' err
      else (log', err)

/-- Embeds Router.handleFallback (src/eventrouter.go lines 331-336). -/
def Router.handleFallback (r : Router) (e : slackevents.EventsAPIEvent)
    (log : Log) : Log × Option GoErr :=
  match r.fallbackHandler with
  | none => (log, some GoErr.notInterested)
  | some h => h e log

/-- The error value Router.handleCallbackEvent computes before responding:
the err variable after the handler loop (err starts as NotInterested; a
missing key skips the loop) and after the fallback call that a
NotInterested-classified err triggers. -/
def Router.dispatchCallback (r : Router) (e : slackevents.EventsAPIEvent)
    (log : Log) : Log × Option GoErr :=
  let step1 :=
    match alookup r.callbackHandlers e.innerEvent.type with
    | some handlers => runHandlers e handlers log (some GoErr.notInterested)
    | none => (log, some GoErr.notInterested)
  if optIsNotInterested step1.2 then r.handleFallback e step1.1 else step1

/-- Embeds Router.handleCallbackEvent (src/eventrouter.go lines 299-320):
after the loop and fallback, a nil or NotInterested-classified err answers
200 with empty body, anything else goes through the error translator. -/
def Router.handleCallbackEvent (r : Router) (e : slackevents.EventsAPIEvent)
    (log : Log) : Log × List HttpResponse :=
  let d := r.dispatchCallback e log
  match d.2 with
  | some err =>
      if errIsNotInterested err then (d.1, [⟨200, ""⟩])
      else (d.1, [RespondWithError err r.verboseResponse])
  | none => (d.1, [⟨200, ""⟩])

/-- One hexadecimal digit, lowercase. -/
def hexDigitChar (n : Nat) : String :=
  String.singleton (Char.ofNat (if n < 10 then 48 + n else 87 + n))

/-- JSON string escaping of encoding/json (with its default HTML escaping)
for one character. -/
def jsonEscapeChar (c : Char) : String :=
  if c = '"' then "\\\""
  else if c = '\\' then "\\\\"
  else if c = '\n' then "\\n"
  else if c = '\r' then "\\r"
  else if c = '\t' then "\\t"
  else if c.toNat < 32 then
    "\\u00" ++ hexDigitChar (c.toNat / 16) ++ hexDigitChar (c.toNat % 16)
  else if c = '<' then "\\u003c"
  else if c = '>' then "\\u003e"
  else if c = '&' then "\\u0026"
  else String.singleton c

def jsonEscapeList : List Char → String
  | [] => ""
  | c :: cs => jsonEscapeChar c ++ jsonEscapeList cs

def jsonEncodeString (s : String) : String :=
  "\"" ++ jsonEscapeList s.data ++ "\""

/-- Embeds json.NewEncoder(w).Encode(resp) for slackevents.ChallengeResponse:
the object with its challenge field, followed by the encoder's newline. -/
def encodeChallengeResponse (resp : slackevents.ChallengeResponse) : String :=
  "\x7b\"challenge\":" ++ jsonEncodeString resp.challenge ++ "\x7d\n"

/-- Embeds Router.handleURLVerification (src/eventrouter.go lines 283-297). -/
def Router.handleURLVerification (r : Router) (e : slackevents.EventsAPIEvent)
    (log : Log) : Log × List HttpResponse :=
  match e.data with
  | .urlVerification ev =>
      match r.urlVerificationHandler ev with
      | .error err => (log, [RespondWithError err r.verboseResponse])
      | .ok resp => (log, [⟨200, encodeChallengeResponse resp⟩])
  | .otherData =>
      (log, [RespondWithError
        (GoErr.other "expected EventsAPIURLVerificationEvent")
        r.verboseResponse])

/-- Embeds Router.handleAppRateLimited (src/eventrouter.go lines 322-329). -/
def Router.handleAppRateLimited (r : Router)
    (e : slackevents.EventsAPIAppRateLimited) (log : Log) :
    Log × List HttpResponse :=
  match r.appRateLimitedHandler e with
  | some err => (log, [RespondWithError err r.verboseResponse])
  | none => (log, [⟨200, "OK"⟩])

/-- Embeds Router.serveHTTP (src/eventrouter.go lines 243-281). Body reading
and the two external decoders (slackevents.ParseEvent, and the dedicated
json.Unmarshal re-decode of the app_rate_limited shape) are parameters; each
element of the returned list is one attempt to write an HTTP response. The
app_rate_limited decode-failure branch reproduces the source faithfully:
it responds with the error and then still runs handleAppRateLimited on the
(zero-value) event, because the source has no return statement there. -/
def Router.serveHTTP (r : Router) (bodyRead : Except String String)
    (parseEvent : String → Except String slackevents.EventsAPIEvent)
    (parseAppRateLimited :
      String → Except String slackevents.EventsAPIAppRateLimited)
    (log : Log) : Log × List HttpResponse :=
  match bodyRead with
  | .error msg => (log, [RespondWithError (GoErr.other msg) r.verboseResponse])
  | .ok body =>
    match parseEvent body with
    | .error msg =>
        (log, [RespondWithError (GoErr.wrapped msg (GoErr.httpError 400))
          r.verboseResponse])
    | .ok e =>
        if e.type = slackevents.URLVerification then
          r.handleURLVerification e log
        else if e.type = slackevents.CallbackEvent then
          r.handleCallbackEvent e log
        else if e.type = slackevents.AppRateLimited then
          match parseAppRateLimited body with
          | .error msg =>
              let errResp := RespondWithError
                (GoErr.wrapped "failed to parse app_rate_limited event"
                  (GoErr.other msg)) r.verboseResponse
              let rest := r.handleAppRateLimited {} log
              (rest.1, errResp :: rest.2)
          | .ok arl => r.handleAppRateLimited arl log
        else
          (log, [RespondWithError
            (GoErr.wrapped ("unknown event type: " ++ e.type)
              (GoErr.httpError 400)) r.verboseResponse])

end eventrouter

/-! ## The interaction Router (form-encoded interaction callbacks) -/

namespace interactionrouter

structure BlockAction where
  blockID : String
  actionID : String
  deriving DecidableEq, Repr

/-- The decoded interaction payload (slack.InteractionCallback), reduced to
the fields the router and its predicates inspect. -/
structure InteractionCallback where
  interactionType : String
  callbackID : String
  channelID : String
  blockActions : List BlockAction
  deriving DecidableEq, Repr

abbrev Handler := HandlerG InteractionCallback

structure Router where
  signingSecret : String
  skipVerification : Bool
  verboseResponse : Bool
  handlers : List (String × List Handler)
  fallbackHandler : Option Handler

/-- A form-encoded interaction request: its Content-Type header and the
value of the payload form field (none when the field is absent). -/
structure Request where
  contentType : String
  payloadField : Option String
  deriving DecidableEq, Repr

/-- Embeds req.FormValue("payload"): the empty string when absent. -/
def Request.formValue (req : Request) : String := req.payloadField.getD ""

/-- Embeds the handler loop of Router.handleInteractionCallback (same loop
as the event router, duplicated in the source). -/
def runHandlers (c : InteractionCallback) :
    List Handler → Log → Option GoErr → Log × Option GoErr
  | [], log, err => (log, err)
  | h :: rest, log, _ =>
      let (log', err) := h c log
      if optIsNotInterested err then runHandlers c rest log' err
      else (log', err)

/-- Embeds interactionrouter Router.handleFallback. -/
def Router.handleFallback (r : Router) (c : InteractionCallback) (log : Log) :
    Log × Option GoErr :=
  match r.fallbackHandler with
  | none => (log, some GoErr.notInterested)
  | some h => h c log

/-- Embeds interactionrouter Router.handleInteractionCallback. -/
def Router.handleInteractionCallback (r : Router) (c : InteractionCallback)
    (log : Log) : Log × List HttpResponse :=
  let step1 :=
    match eventrouter.alookup r.handlers c.interactionType with
    | some handlers => runHandlers c handlers log (some GoErr.notInterested)
    | none => (log, some GoErr.notInterested)
  let step2 :=
    if optIsNotInterested step1.2 then r.handleFallback c step1.1 else step1
  match step2.2 with
  | some err =>
      if errIsNotInterested err then (step2.1, [⟨200, ""⟩])
      else (step2.1, [RespondWithError err r.verboseResponse])
  | none => (step2.1, [⟨200, ""⟩])

/-- Embeds interactionrouter Router.serveHTTP, the version with the
Content-Type check (src/internal/testutils/testutils.go related document,
lines 255-274): 400 on a wrong Content-Type before the payload field is
read; 400 on a missing or empty payload; then decode (parameter, for
json.Unmarshal into slack.InteractionCallback) and dispatch. -/
def Router.serveHTTP (r : Router) (req : Request)
    (parsePayload : String → Except String InteractionCallback)
    (log : Log) : Log × List HttpResponse :=
  if req.contentType ≠ "application/x-www-form-urlencoded" then
    (log, [RespondWithError
      (GoErr.wrapped "unexpected Content-Type" (GoErr.httpError 400))
      r.verboseResponse])
  else
    let payload := req.formValue
    if payload = "" then
      (log, [RespondWithError
        (GoErr.wrapped "missing payload" (GoErr.httpError 400))
        r.verboseResponse])
    else
      match parsePayload payload with
      | .error msg => (log, [RespondWithError (GoErr.other msg) r.verboseResponse])
      | .ok cb => r.handleInteractionCallback cb log

end interactionrouter

/-! ## Routers used to state the claims -/

/-- The Router that New [InsecureSkipVerification] constructs. -/
def insecureRouter : eventrouter.Router :=
  { eventrouter.defaultRouter with skipVerification := true }

/-- A bypassing router with one registered handler under one type key and a
verbosity flag, as built by New + On. -/
def singleHandlerRouter (verbose : Bool) (t : String)
    (h : eventrouter.Handler) : eventrouter.Router :=
  { insecureRouter with
    verboseResponse := verbose
    callbackHandlers := [(t, [h])] }

/-! ## Specification-side dispatch (the claims' words, for comparison) -/

/-- Specification-side first-claimed scan (C3's words): iterate the handler
list in registration order, invoke each, stop at the first result that is
not NotInterested; a none outcome means the list was empty or every handler
declined. -/
def specFirstClaimed (e : slackevents.EventsAPIEvent) :
    List eventrouter.Handler → Log → Log × Option (Option GoErr)
  | [], log => (log, none)
  | h :: rest, log =>
      let out := h e log
      if optIsNotInterested out.2 then specFirstClaimed e rest out.1
      else (out.1, some out.2)

/-- Specification-side dispatch (C3's words): when the key is absent, the
list is empty, or every handler declined, the fallback handler runs, a
missing fallback yielding NotInterested. -/
def specDispatch (r : eventrouter.Router) (e : slackevents.EventsAPIEvent)
    (log : Log) : Log × Option GoErr :=
  let hs := (eventrouter.alookup r.callbackHandlers e.innerEvent.type).getD []
  match specFirstClaimed e hs log with
  | (claimedLog, some res) => (claimedLog, res)
  | (claimedLog, none) =>
      match r.fallbackHandler with
      | some f => f e claimedLog
      | none => (claimedLog, some GoErr.notInterested)

/-- Specification-side response (C3's words): a final NotInterested or nil
result produces 200 with an empty body; any other error is translated. -/
def specResponse (res : Option GoErr) (verbose : Bool) : HttpResponse :=
  match res with
  | none => ⟨200, ""⟩
  | some err =>
      if errIsNotInterested err then ⟨200, ""⟩ else RespondWithError err verbose

theorem runHandlers_cons (e : slackevents.EventsAPIEvent)
    (h : eventrouter.Handler) (rest : List eventrouter.Handler)
    (log : Log) (err0 : Option GoErr) :
    eventrouter.runHandlers e (h :: rest) log err0
      = (if optIsNotInterested (h e log).2
         then eventrouter.runHandlers e rest (h e log).1 (h e log).2
         else ((h e log).1, (h e log).2)) := rfl

theorem specFirstClaimed_cons (e : slackevents.EventsAPIEvent)
    (h : eventrouter.Handler) (rest : List eventrouter.Handler) (log : Log) :
    specFirstClaimed e (h :: rest) log
      = (if optIsNotInterested (h e log).2
         then specFirstClaimed e rest (h e log).1
         else ((h e log).1, some (h e log).2)) := rfl

theorem runHandlers_specFirstClaimed (e : slackevents.EventsAPIEvent)
    (hs : List eventrouter.Handler) :
    ∀ log err0, optIsNotInterested err0 = true →
      (eventrouter.runHandlers e hs log err0).1 = (specFirstClaimed e hs log).1
      ∧ (((specFirstClaimed e hs log).2
            = some (eventrouter.runHandlers e hs log err0).2
          ∧ optIsNotInterested (eventrouter.runHandlers e hs log err0).2 = false)
        ∨ ((specFirstClaimed e hs log).2 = none
          ∧ optIsNotInterested (eventrouter.runHandlers e hs log err0).2 = true)) := by
  induction hs with
  | nil =>
      intro log err0 h0
      exact ⟨rfl, Or.inr ⟨rfl, h0⟩⟩
  | cons h rest ih =>
      intro log err0 h0
      rw [runHandlers_cons, specFirstClaimed_cons]
      cases hni : optIsNotInterested (h e log).2 with
      | true =>
          simp only [eq_self_iff_true, if_true]
          exact ih (h e log).1 (h e log).2 hni
      | false =>
          simpa using hni

theorem dispatchCallback_eq_specDispatch (r : eventrouter.Router)
    (e : slackevents.EventsAPIEvent) (log : Log) :
    r.dispatchCallback e log = specDispatch r e log := by
  unfold eventrouter.Router.dispatchCallback specDispatch
  cases hlk : eventrouter.alookup r.callbackHandlers e.innerEvent.type with
  | none =>
      cases hfb : r.fallbackHandler with
      | none =>
          simp [specFirstClaimed, optIsNotInterested, errIsNotInterested,
            eventrouter.Router.handleFallback, hfb]
      | some f =>
          simp [specFirstClaimed, optIsNotInterested, errIsNotInterested,
            eventrouter.Router.handleFallback, hfb]
  | some hs =>
      simp only [Option.getD]
      obtain ⟨h1, h2⟩ := runHandlers_specFirstClaimed e hs log
        (some GoErr.notInterested) rfl
      rcases hsp : specFirstClaimed e hs log with ⟨cl, cres⟩
      rw [hsp] at h1 h2
      simp only at h1 h2
      rcases h2 with ⟨hC, hni⟩ | ⟨hC, hni⟩
      · subst hC
        rw [if_neg (by simp [hni]), ← h1]
      · subst hC
        rw [if_pos hni, ← h1]
        unfold eventrouter.Router.handleFallback
        cases r.fallbackHandler <;> rfl

theorem finalStep_eq (v : Bool) (l : Log) (res : Option GoErr) :
    (match res with
     | some err =>
         if errIsNotInterested err then (l, ([⟨200, ""⟩] : List HttpResponse))
         else (l, [RespondWithError err v])
     | none => (l, [⟨200, ""⟩]))
    = (l, [specResponse res v]) := by
  cases res with
  | none => rfl
  | some err =>
      cases h : errIsNotInterested err <;> simp [specResponse, h]

/-- C3: for every callback envelope, the dispatcher behaves exactly as the
specification states: the handlers registered for the inner event's type key
run in registration order up to the first whose result is not NotInterested;
when the key is absent, the list is empty or every handler declines, the
fallback handler runs (a missing fallback yielding NotInterested); a final
NotInterested or nil result produces one 200 response with empty body, and
any other error is translated. -/
theorem c3_callback_dispatch (r : eventrouter.Router)
    (e : slackevents.EventsAPIEvent) (log : Log) :
    r.handleCallbackEvent e log
      = ((specDispatch r e log).1,
         [specResponse (specDispatch r e log).2 r.verboseResponse]) := by
  unfold eventrouter.Router.handleCallbackEvent
  rw [dispatchCallback_eq_specDispatch]
  exact finalStep_eq r.verboseResponse (specDispatch r e log).1
    (specDispatch r e log).2

/-! ## Composition order of Build (C4) -/

/-- Specification-side run of a probe-predicate chain: the given list is
evaluated front to back, each evaluated predicate is recorded, the run stops
with NotInterested at the first non-match, and only when all match does the
terminal handler run. -/
def probeRun {α : Type} (h : HandlerG α) (e : α) :
    List (String × Bool) → Log → Log × Option GoErr
  | [], log => h e log
  | s :: rest, log =>
      let seen := log ++ [s.1]
      if s.2 then probeRun h e rest seen
      else (seen, some GoErr.notInterested)

theorem build_probe_reverse {α : Type} (e : α) (specs : List (String × Bool)) :
    ∀ (h : HandlerG α) (log : Log),
      Build h (specs.map (fun s => probePredicate s.1 s.2)) e log
        = probeRun h e specs.reverse log := by
  induction specs using List.reverseRecOn with
  | nil => intro h log; rfl
  | append_singleton specs s ih =>
      intro h log
      have hb : Build h ((specs ++ [s]).map (fun s => probePredicate s.1 s.2))
          = probePredicate s.1 s.2
              (Build h (specs.map (fun s => probePredicate s.1 s.2))) := by
        simp [Build, List.foldl_append]
      have hr : (specs ++ [s]).reverse = s :: specs.reverse := by simp
      rw [hb, hr]
      simp only [probePredicate, probeRun]
      cases hsm : s.2 <;> simp [ih]

theorem probeRun_of_nonmatch {α : Type} (h : HandlerG α) (e : α)
    (l : List (String × Bool)) :
    ∀ log, (∃ s ∈ l, s.2 = false) →
      ∃ seen, probeRun h e l log = (seen, some GoErr.notInterested) := by
  induction l with
  | nil => intro log hf; simp at hf
  | cons s rest ih =>
      intro log hf
      cases hsm : s.2 with
      | false => exact ⟨log ++ [s.1], by simp [probeRun, hsm]⟩
      | true =>
          obtain ⟨seen, hseen⟩ := ih (log ++ [s.1]) (by
            rcases hf with ⟨x, hx, hxf⟩
            rcases List.mem_cons.mp hx with rfl | hx
            · rw [hsm] at hxf; cases hxf
            · exact ⟨x, hx, hxf⟩)
          exact ⟨seen, by simp [probeRun, hsm, hseen]⟩

/-- C4 counterexample: wrapping a handler with [P1 non-matching,
P2 matching] via Build and running it evaluates P2 first and then P1 (the
evaluation trace is ["P2", "P1"]), so the claim's evaluation order — P1
evaluated, P2 never reached, i.e. the trace ["P1"] — does not hold; the
handler is still never invoked and the result is still NotInterested. -/
theorem c4_order_counterexample :
    Build (probeHandler "H" (none : Option GoErr))
        [probePredicate "P1" false, probePredicate "P2" true]
        (⟨"chan", "text", ""⟩ : slackevents.MessageEvent) []
      = (["P2", "P1"], some GoErr.notInterested)
    ∧ (["P2", "P1"] : List String) ≠ ["P1"] :=
  ⟨rfl, by decide⟩

/-- C4 (amended): Build wraps left to right, so the LAST predicate of the
argument list is outermost: the built handler evaluates the predicates from
the last to the first and short-circuits at the first non-matching one with
NotInterested, leaving predicates earlier in the argument list and the
terminal handler not invoked; the terminal handler runs only when every
predicate matches. In particular for [P1 non-matching, P2 matching] the run
evaluates P2, then P1, never invokes the handler, and returns NotInterested. -/
theorem c4_build_composition {α : Type} (e : α) (specs : List (String × Bool))
    (h : HandlerG α) (log : Log) :
    Build h (specs.map (fun s => probePredicate s.1 s.2)) e log
      = probeRun h e specs.reverse log
    ∧ ((∃ s ∈ specs, s.2 = false) →
        ∃ seen, Build h (specs.map (fun s => probePredicate s.1 s.2)) e log
          = (seen, some GoErr.notInterested)) := by
  refine ⟨build_probe_reverse e specs h log, fun hf => ?_⟩
  rw [build_probe_reverse e specs h log]
  refine probeRun_of_nonmatch h e specs.reverse log ?_
  rcases hf with ⟨s, hs, hsf⟩
  exact ⟨s, List.mem_reverse.mpr hs, hsf⟩

/-- Witness for C4 (amended) at [P1 non-matching, P2 matching] on a concrete
message event. -/
theorem c4_build_composition_witness :
    (Build (probeHandler "H" (none : Option GoErr))
        (([("P1", false), ("P2", true)] : List (String × Bool)).map
          (fun s => probePredicate s.1 s.2))
        (⟨"chan", "text", ""⟩ : slackevents.MessageEvent) []
      = probeRun (probeHandler "H" (none : Option GoErr))
          (⟨"chan", "text", ""⟩ : slackevents.MessageEvent)
          ([("P1", false), ("P2", true)] : List (String × Bool)).reverse [])
    ∧ ∃ seen, Build (probeHandler "H" (none : Option GoErr))
        (([("P1", false), ("P2", true)] : List (String × Bool)).map
          (fun s => probePredicate s.1 s.2))
        (⟨"chan", "text", ""⟩ : slackevents.MessageEvent) []
        = (seen, some GoErr.notInterested) :=
  ⟨(c4_build_composition (⟨"chan", "text", ""⟩ : slackevents.MessageEvent)
      [("P1", false), ("P2", true)] (probeHandler "H" none) []).1,
   (c4_build_composition (⟨"chan", "text", ""⟩ : slackevents.MessageEvent)
      [("P1", false), ("P2", true)] (probeHandler "H" none) []).2
     ⟨("P1", false), by decide, rfl⟩⟩

/-! ## Wrap-preserving error classification (C5) -/

/-- C5: classification is preserved when an error is wrapped with an
additional message: a wrapped NotInterested still classifies as
NotInterested — the dispatcher falls through to the next handler, and a
final such result yields 200, not 500 — and a wrapped HttpError(code) still
classifies as HttpError, so the response status is exactly code. -/
theorem c5_wrapped_classification (m : String) (code : Nat) (verbose : Bool)
    (e : slackevents.EventsAPIEvent) (log : Log) (h2 : eventrouter.Handler) :
    errIsNotInterested (GoErr.wrapped m GoErr.notInterested) = true
    ∧ (RespondWithError (GoErr.wrapped m (GoErr.httpError code)) verbose).status
        = code
    ∧ eventrouter.runHandlers e
        [fun _ l => (l, some (GoErr.wrapped m GoErr.notInterested)), h2]
        log (some GoErr.notInterested)
      = h2 e log
    ∧ (singleHandlerRouter verbose e.innerEvent.type
        (fun _ l => (l, some (GoErr.wrapped m GoErr.notInterested)))
        ).handleCallbackEvent e log
      = (log, [⟨200, ""⟩])
    ∧ ((singleHandlerRouter verbose e.innerEvent.type
        (fun _ l => (l, some (GoErr.wrapped m (GoErr.httpError code))))
        ).handleCallbackEvent e log).2.map (fun resp => resp.status)
      = [code] := by
  refine ⟨rfl, by simp [RespondWithError, errAsHttpError], ?_, ?_, ?_⟩
  · rw [runHandlers_cons]
    rw [if_pos (show optIsNotInterested
      ((fun (_ : slackevents.EventsAPIEvent) l =>
        (l, some (GoErr.wrapped m GoErr.notInterested))) e log).2 = true from rfl)]
    rw [runHandlers_cons]
    cases hni : optIsNotInterested (h2 e log).2 <;>
      simp [eventrouter.runHandlers]
  · simp [eventrouter.Router.handleCallbackEvent,
      eventrouter.Router.dispatchCallback, singleHandlerRouter, insecureRouter,
      eventrouter.defaultRouter, eventrouter.alookup, eventrouter.runHandlers,
      eventrouter.Router.handleFallback, optIsNotInterested, errIsNotInterested]
  · simp [eventrouter.Router.handleCallbackEvent,
      eventrouter.Router.dispatchCallback, singleHandlerRouter, insecureRouter,
      eventrouter.defaultRouter, eventrouter.alookup, eventrouter.runHandlers,
      eventrouter.Router.handleFallback, optIsNotInterested, errIsNotInterested,
      RespondWithError, errAsHttpError]

/-! ## The app_rate_limited double response (C6) -/

/-- C6: evaluation of the code at the failing input: an app_rate_limited
envelope whose dedicated re-decode fails makes serveHTTP write two
responses — the 500 error response for the failed re-decode, then the "OK"
acknowledgement — because the error branch lacks a return; this violates
the exactly-one-response invariant the claim states. -/
theorem c6_rate_limited_double_response :
    (insecureRouter.serveHTTP (Except.ok "B")
      (fun _ => Except.ok
        { type := slackevents.AppRateLimited
          data := slackevents.OuterData.otherData
          innerEvent := { type := "", data := slackevents.InnerData.otherData } })
      (fun _ => Except.error "json: cannot unmarshal")
      []).2
      = [⟨500, ""⟩, ⟨200, "OK"⟩]
    ∧ ([⟨500, ""⟩, ⟨200, "OK"⟩] : List HttpResponse).length ≠ 1 := by
  exact ⟨by decide, by decide⟩

/-! ## Mutual exclusion at construction (C7) -/

/-- Specification-side condition (C7's words): exactly one of the signing
secret being set and the skip-verification flag being set. -/
def exactlyOneConfigured (secretSet skipSet : Prop) : Prop :=
  (secretSet ∧ ¬ skipSet) ∨ (¬ secretSet ∧ skipSet)

/-- C7: New returns a Router exactly when exactly one of the signing secret
and the insecure-skip flag ends up configured by the options; with neither
or both it fails with a configuration error at construction time, so the
violation is never surfaced at request time. -/
theorem c7_new_mutual_exclusion (options : List eventrouter.RouterOption) :
    (∃ router, eventrouter.New options = Except.ok router)
      ↔ exactlyOneConfigured
          ((options.foldl eventrouter.applyOption
            eventrouter.defaultRouter).signingSecret ≠ "")
          ((options.foldl eventrouter.applyOption
            eventrouter.defaultRouter).skipVerification = true) := by
  unfold eventrouter.New exactlyOneConfigured
  set r := options.foldl eventrouter.applyOption eventrouter.defaultRouter with hr
  by_cases hsec : r.signingSecret = "" <;>
    by_cases hskip : r.skipVerification = true <;>
    simp [hsec, hskip]

/-! ## Interaction router guards (C8) -/

/-- A bypassing interaction router with an empty registry. -/
def emptyInteractionRouter : interactionrouter.Router :=
  { signingSecret := ""
    skipVerification := true
    verboseResponse := false
    handlers := []
    fallbackHandler := none }

/-- C8: the interaction router answers 400 when the Content-Type is not the
form-encoded media type — and does so without reading the payload field:
the outcome is the same for every payload value — and it answers 400 when
the Content-Type is right but the payload field is absent or empty. -/
theorem c8_interaction_guards (r : interactionrouter.Router)
    (req : interactionrouter.Request)
    (parsePayload : String → Except String interactionrouter.InteractionCallback)
    (log : Log) :
    (req.contentType ≠ "application/x-www-form-urlencoded" →
      (∀ p, ((interactionrouter.Router.serveHTTP r
          { req with payloadField := p } parsePayload log).2.map
            (fun resp => resp.status) = [400]))
      ∧ ∀ p q,
          interactionrouter.Router.serveHTTP r { req with payloadField := p }
            parsePayload log
          = interactionrouter.Router.serveHTTP r { req with payloadField := q }
            parsePayload log)
    ∧ (req.contentType = "application/x-www-form-urlencoded" →
      (req.payloadField = none ∨ req.payloadField = some "") →
      ((r.serveHTTP req parsePayload log).2.map (fun resp => resp.status)
        = [400])) := by
  constructor
  · intro hct
    constructor
    · intro p
      simp [interactionrouter.Router.serveHTTP, hct, RespondWithError,
        errAsHttpError, errIsNotInterested]
    · intro p q
      simp [interactionrouter.Router.serveHTTP, hct]
  · intro hct hp
    rcases hp with hp | hp <;>
      simp [interactionrouter.Router.serveHTTP, hct,
        interactionrouter.Request.formValue, hp, RespondWithError,
        errAsHttpError]

/-- Witness for C8: a text/plain request is answered 400 regardless of its
payload, and a form-encoded request with an absent payload is answered
400. -/
theorem c8_interaction_guards_witness :
    ((interactionrouter.Router.serveHTTP emptyInteractionRouter
        { contentType := "text/plain", payloadField := some "x" }
        (fun _ => Except.error "e") []).2.map (fun resp => resp.status) = [400])
    ∧ ((interactionrouter.Router.serveHTTP emptyInteractionRouter
        { contentType := "application/x-www-form-urlencoded",
          payloadField := none }
        (fun _ => Except.error "e") []).2.map (fun resp => resp.status)
        = [400]) :=
  ⟨((c8_interaction_guards emptyInteractionRouter
      ⟨"text/plain", some "x"⟩ (fun _ => Except.error "e") []).1
      (by decide)).1 (some "x"),
   (c8_interaction_guards emptyInteractionRouter
      ⟨"application/x-www-form-urlencoded", none⟩ (fun _ => Except.error "e")
      []).2 rfl (Or.inl rfl)⟩

/-! ## URL-verification echo (C9) -/

theorem New_insecure :
    eventrouter.New [eventrouter.RouterOption.insecureSkipVerification]
      = Except.ok insecureRouter := rfl

/-- Characters that encoding/json escapes inside a string literal. -/
def needsJsonEscape (c : Char) : Bool :=
  decide (c = '"') || decide (c = '\\') || decide (c.toNat < 32)
    || decide (c = '<') || decide (c = '>') || decide (c = '&')

theorem jsonEscapeChar_id (c : Char) (h : needsJsonEscape c = false) :
    eventrouter.jsonEscapeChar c = String.singleton c := by
  simp only [needsJsonEscape, Bool.or_eq_false_iff, decide_eq_false_iff_not] at h
  obtain ⟨⟨⟨⟨⟨h1, h2⟩, h3⟩, h4⟩, h5⟩, h6⟩ := h
  have hn : c ≠ '\n' := by intro hc; subst hc; exact h3 (by decide)
  have hr : c ≠ '\r' := by intro hc; subst hc; exact h3 (by decide)
  have ht : c ≠ '\t' := by intro hc; subst hc; exact h3 (by decide)
  unfold eventrouter.jsonEscapeChar
  rw [if_neg h1, if_neg h2, if_neg hn, if_neg hr, if_neg ht, if_neg h3,
    if_neg h4, if_neg h5, if_neg h6]

theorem jsonEscapeList_id (cs : List Char)
    (h : ∀ c ∈ cs, needsJsonEscape c = false) :
    eventrouter.jsonEscapeList cs = String.mk cs := by
  induction cs with
  | nil => rfl
  | cons c cs ih =>
      have hc := jsonEscapeChar_id c (h c (by simp))
      rw [eventrouter.jsonEscapeList, hc, ih (fun x hx => h x (by simp [hx]))]
      rfl

theorem jsonEncodeString_id (s : String)
    (h : ∀ c ∈ s.data, needsJsonEscape c = false) :
    eventrouter.jsonEncodeString s = "\"" ++ s ++ "\"" := by
  unfold eventrouter.jsonEncodeString
  rw [jsonEscapeList_id s.data h]

/-- C9: a Router constructed with verification bypassed, keeping the default
url_verification handler, answers a url_verification envelope carrying
challenge X with one 200 response whose JSON body contains X unchanged. -/
theorem c9_url_verification_echo (router : eventrouter.Router) (X body : String)
    (parseARL : String → Except String slackevents.EventsAPIAppRateLimited)
    (log : Log)
    (hrouter :
      eventrouter.New [eventrouter.RouterOption.insecureSkipVerification]
        = Except.ok router)
    (hesc : ∀ c ∈ X.data, needsJsonEscape c = false) :
    router.serveHTTP (Except.ok body)
      (fun _ => Except.ok
        { type := slackevents.URLVerification
          data := slackevents.OuterData.urlVerification { challenge := X }
          innerEvent := { type := "", data := slackevents.InnerData.otherData } })
      parseARL log
      = (log, [⟨200, "\x7b\"challenge\":" ++ ("\"" ++ X ++ "\"") ++ "\x7d\n"⟩]) := by
  rw [New_insecure] at hrouter
  injection hrouter with hrouter
  subst hrouter
  simp [eventrouter.Router.serveHTTP, eventrouter.Router.handleURLVerification,
    insecureRouter, eventrouter.defaultRouter,
    eventrouter.urlverification.DefaultHandler,
    eventrouter.encodeChallengeResponse, jsonEncodeString_id X hesc]

/-- Witness for C9 at challenge "X". -/
theorem c9_url_verification_echo_witness :
    insecureRouter.serveHTTP (Except.ok "anybody")
      (fun _ => Except.ok
        { type := slackevents.URLVerification
          data := slackevents.OuterData.urlVerification { challenge := "X" }
          innerEvent := { type := "", data := slackevents.InnerData.otherData } })
      (fun _ => Except.error "unused") []
      = ([], [⟨200, "\x7b\"challenge\":" ++ ("\"" ++ "X" ++ "\"") ++ "\x7d\n"⟩]) :=
  c9_url_verification_echo insecureRouter "X" "anybody"
    (fun _ => Except.error "unused") [] New_insecure (by decide)

/-! ## Typed registration wrappers (C10) -/

/-- A bypassing router with an empty registry and a verbosity flag. -/
def insecureVerboseRouter (verbose : Bool) : eventrouter.Router :=
  { insecureRouter with verboseResponse := verbose }

/-- C10: each typed registration method (OnMessage, OnAppMention,
OnReactionAdded, OnReactionRemoved) wraps the user handler so that a
callback envelope with the matching type key whose inner payload is not of
the expected concrete type is answered with HttpError(400) — the router
responds 400, not 500 — without invoking the user handler or its
predicates. -/
theorem c10_typed_registration_mismatch (verbose : Bool) (log : Log)
    (e : slackevents.EventsAPIEvent)
    (hm : HandlerG slackevents.MessageEvent)
    (pm : List (PredicateG slackevents.MessageEvent))
    (ha : HandlerG slackevents.AppMentionEvent)
    (pa : List (PredicateG slackevents.AppMentionEvent))
    (hra : HandlerG slackevents.ReactionAddedEvent)
    (pra : List (PredicateG slackevents.ReactionAddedEvent))
    (hrr : HandlerG slackevents.ReactionRemovedEvent)
    (prr : List (PredicateG slackevents.ReactionRemovedEvent)) :
    (e.innerEvent.type = slackevents.Message →
      (∀ inner, e.innerEvent.data ≠ slackevents.InnerData.message inner) →
      ((insecureVerboseRouter verbose).OnMessage hm pm).handleCallbackEvent e log
        = (log, [RespondWithError (GoErr.httpError 400) verbose]))
    ∧ (e.innerEvent.type = slackevents.AppMention →
      (∀ inner, e.innerEvent.data ≠ slackevents.InnerData.appMention inner) →
      ((insecureVerboseRouter verbose).OnAppMention ha pa).handleCallbackEvent
          e log
        = (log, [RespondWithError (GoErr.httpError 400) verbose]))
    ∧ (e.innerEvent.type = slackevents.ReactionAdded →
      (∀ inner, e.innerEvent.data ≠ slackevents.InnerData.reactionAdded inner) →
      ((insecureVerboseRouter verbose).OnReactionAdded hra pra
          ).handleCallbackEvent e log
        = (log, [RespondWithError (GoErr.httpError 400) verbose]))
    ∧ (e.innerEvent.type = slackevents.ReactionRemoved →
      (∀ inner, e.innerEvent.data ≠ slackevents.InnerData.reactionRemoved inner) →
      ((insecureVerboseRouter verbose).OnReactionRemoved hrr prr
          ).handleCallbackEvent e log
        = (log, [RespondWithError (GoErr.httpError 400) verbose])) := by
  refine ⟨?_, ?_, ?_, ?_⟩ <;> intro hty hdata <;>
    cases hd : e.innerEvent.data <;>
    first
      | exact absurd hd (hdata _)
      | simp [eventrouter.Router.OnMessage, eventrouter.Router.OnAppMention,
          eventrouter.Router.OnReactionAdded, eventrouter.Router.OnReactionRemoved,
          eventrouter.Router.On, eventrouter.Router.handleCallbackEvent,
          eventrouter.Router.dispatchCallback, eventrouter.Router.handleFallback,
          eventrouter.alookup, eventrouter.astore, eventrouter.runHandlers,
          insecureVerboseRouter, insecureRouter, eventrouter.defaultRouter,
          optIsNotInterested, errIsNotInterested, hty, hd]

/-- Witness for C10: each typed registration answers 400 on a wrong-typed
inner payload at a concrete event. -/
theorem c10_typed_registration_mismatch_witness :
    (((insecureVerboseRouter false).OnMessage (fun _ l => (l, none)) []
        ).handleCallbackEvent
        { type := slackevents.CallbackEvent
          data := slackevents.OuterData.otherData
          innerEvent := { type := slackevents.Message,
                          data := slackevents.InnerData.otherData } } []
      = ([], [RespondWithError (GoErr.httpError 400) false]))
    ∧ (((insecureVerboseRouter false).OnAppMention (fun _ l => (l, none)) []
        ).handleCallbackEvent
        { type := slackevents.CallbackEvent
          data := slackevents.OuterData.otherData
          innerEvent := { type := slackevents.AppMention,
                          data := slackevents.InnerData.otherData } } []
      = ([], [RespondWithError (GoErr.httpError 400) false]))
    ∧ (((insecureVerboseRouter false).OnReactionAdded (fun _ l => (l, none)) []
        ).handleCallbackEvent
        { type := slackevents.CallbackEvent
          data := slackevents.OuterData.otherData
          innerEvent := { type := slackevents.ReactionAdded,
                          data := slackevents.InnerData.otherData } } []
      = ([], [RespondWithError (GoErr.httpError 400) false]))
    ∧ (((insecureVerboseRouter false).OnReactionRemoved (fun _ l => (l, none)) []
        ).handleCallbackEvent
        { type := slackevents.CallbackEvent
          data := slackevents.OuterData.otherData
          innerEvent := { type := slackevents.ReactionRemoved,
                          data := slackevents.InnerData.otherData } } []
      = ([], [RespondWithError (GoErr.httpError 400) false])) :=
  ⟨(c10_typed_registration_mismatch false [] _ (fun _ l => (l, none)) []
      (fun _ l => (l, none)) [] (fun _ l => (l, none)) [] (fun _ l => (l, none))
      []).1 rfl (fun inner => by simp),
   (c10_typed_registration_mismatch false [] _ (fun _ l => (l, none)) []
      (fun _ l => (l, none)) [] (fun _ l => (l, none)) [] (fun _ l => (l, none))
      []).2.1 rfl (fun inner => by simp),
   (c10_typed_registration_mismatch false [] _ (fun _ l => (l, none)) []
      (fun _ l => (l, none)) [] (fun _ l => (l, none)) [] (fun _ l => (l, none))
      []).2.2.1 rfl (fun inner => by simp),
   (c10_typed_registration_mismatch false [] _ (fun _ l => (l, none)) []
      (fun _ l => (l, none)) [] (fun _ l => (l, none)) [] (fun _ l => (l, none))
      []).2.2.2 rfl (fun inner => by simp)⟩

end SlackRouter
